import Mathlib

/-
Formal model of the STOK inventory decision engine.

The definitions below are a shallow embedding of the backend services
(services/agent.py, services/forecasting.py, services/feedback.py,
services/market_data.py) and the action router (routers/actions.py,
routers/data.py). Conventions of the embedding:

* Python float arithmetic is modelled over the rationals.  The builtin
  Python round (round half to even) is modelled by roundHalfEven, and
  int() truncation toward zero by intTrunc.
* Nullable database columns are modelled with Option.  The Python
  idiom (x or d), which replaces both None and 0 by the default d, is
  modelled by pyOr.
* Timestamps are integers.  The agent and feedback services measure
  time in days (windows of 30, 60 and 90 days); the forecast cache
  measures time in hours (6 hour time to live).
* The Prophet model is an external ML library whose numeric output is
  not reproducible in the embedding; it is modelled as an oracle
  argument (none meaning the model raised, which the source catches by
  falling back to the linear model).  Free text fields (titles,
  justifications, risk strings) and the extra_data metadata bag are
  display only and are omitted from the action records, as are the
  lower and upper forecast bands of the linear model, whose width is
  1.645 times a residual standard deviation (an irrational square
  root).
-/

namespace Stok

/-! ## Numeric helpers shared by all services -/

/-- Python int() applied to a float: truncation toward zero. -/
def intTrunc (q : ℚ) : ℤ :=
  if 0 ≤ q then ⌊q⌋ else ⌈q⌉

/-- Python round(x) on a float: round half to even. -/
def roundHalfEven (q : ℚ) : ℤ :=
  if q - ⌊q⌋ < 1/2 then ⌊q⌋
  else if 1/2 < q - ⌊q⌋ then ⌊q⌋ + 1
  else if ⌊q⌋ % 2 = 0 then ⌊q⌋ else ⌊q⌋ + 1

/-- Python round(x, d): round half to even at d decimal digits. -/
def roundTo (d : ℕ) (q : ℚ) : ℚ :=
  (roundHalfEven (q * 10 ^ d) : ℚ) / 10 ^ d

/-- The Python idiom (x or d) on a nullable float column: both None
and 0 fall back to the default d. -/
def pyOr (v : Option ℚ) (d : ℚ) : ℚ :=
  match v with
  | none => d
  | some x => if x = 0 then d else x

/-- Python round(sqrt(q)) with round half to even, for q ≥ 0, in exact
arithmetic: the integer nearest to the real square root of q. -/
def roundHalfEvenSqrt (q : ℚ) : ℤ :=
  let k := Nat.sqrt (Int.toNat ⌊4 * q⌋)
  if (k : ℚ) * k = 4 * q ∧ k % 2 = 1 then
    let m := (k - 1) / 2
    if m % 2 = 0 then (m : ℤ) else (m : ℤ) + 1
  else (((k + 1) / 2 : ℕ) : ℤ)

/-- Mean of a rational list (pandas .mean on a nonempty column). -/
def listMean (l : List ℚ) : ℚ :=
  l.sum / l.length

/-- The last k elements of a list (pandas .tail). -/
def takeLast (k : ℕ) (l : List α) : List α :=
  l.drop (l.length - k)

/-- Insertion into a sorted list, ascending. -/
def sortedInsert (x : ℚ) : List ℚ → List ℚ
  | [] => [x]
  | y :: ys => if x ≤ y then x :: y :: ys else y :: sortedInsert x ys

/-- Ascending insertion sort (np.percentile sorts its input). -/
def sortRats (l : List ℚ) : List ℚ :=
  l.foldr sortedInsert []

/-- Insertion into a sorted integer list, ascending. -/
def sortedInsertInt (x : ℤ) : List ℤ → List ℤ
  | [] => [x]
  | y :: ys => if x ≤ y then x :: y :: ys else y :: sortedInsertInt x ys

/-- Ascending insertion sort on integers (pandas groupby sorts keys). -/
def sortInts (l : List ℤ) : List ℤ :=
  l.foldr sortedInsertInt []

/-- np.percentile(l, 25) with the default linear interpolation. -/
def percentile25 (l : List ℚ) : ℚ :=
  let s := sortRats l
  let h : ℚ := ((s.length : ℚ) - 1) / 4
  let i := Int.toNat ⌊h⌋
  let lo := s.getD i 0
  let hi := s.getD (i + 1) lo
  lo + (h - (i : ℚ)) * (hi - lo)

/-! ## Data model (models.py), restricted to the fields the engine reads -/

/-- One row of sales_history: (date, quantity_sold). -/
structure SalesObs where
  date : ℤ
  qty : ℤ
deriving DecidableEq

/-- One row of skus. -/
structure SKU where
  id : String
  reorderPoint : ℤ
  safetyStock : ℤ
  leadTimeDays : ℤ
  moq : ℤ
  unitCost : Option ℚ
  unitPrice : Option ℚ
deriving DecidableEq

/-- One row of suppliers (reliability metrics are nullable). -/
structure Supplier where
  id : String
  onTimeDeliveryRate : Option ℚ
  qualityRate : Option ℚ
  avgLeadTimeDays : Option ℚ
  costVariancePct : Option ℚ
deriving DecidableEq

/-- One row of sku_suppliers. -/
structure SKUSupplier where
  skuId : String
  supplierId : String
  unitCost : Option ℚ
  isPreferred : Bool
deriving DecidableEq

/-- One row of pending_actions (free text fields omitted). -/
structure PendingAction where
  id : String
  skuId : String
  type : String
  priority : String
  recommendedQty : Option ℤ
  recommendedValue : Option ℚ
  supplierId : Option String
  confidenceScore : Option ℚ
  status : String
  reviewedAt : Option ℤ
  reviewedBy : Option String
deriving DecidableEq

/-- The audit_log fields read back by the feedback service: entity_id,
outcome, and the qty_override entry of the meta JSON. -/
structure AuditEntry where
  entityId : String
  outcome : String
  qtyOverride : Option ℚ
deriving DecidableEq

/-! ## Market context adjuster (services/market_data.py) -/

/-- The two aggregate signals of get_market_context that the quantity
adjustment reads (signal strings are display only). -/
structure MarketContext where
  marketSentiment : String
  shippingStress : String
deriving DecidableEq

/-- adjust_reorder_qty_for_market: multiplicative buffers for volatile
sentiment and elevated shipping stress, floored at the base quantity. -/
def adjustReorderQtyForMarket (baseQty : ℤ) (mc : MarketContext) : ℤ :=
  let qty : ℤ := baseQty
  let qty : ℤ :=
    if mc.marketSentiment = "volatile" then intTrunc ((qty : ℚ) * (115/100))
    else if mc.marketSentiment = "stable" then intTrunc ((qty : ℚ) * 1)
    else qty
  let qty : ℤ :=
    if mc.shippingStress = "elevated" then intTrunc ((qty : ℚ) * (110/100))
    else qty
  max qty baseQty

/-! ## Feedback learner (services/feedback.py) -/

/-- The weights dict returned by compute_feedback_weights.  The keys
approved_count and rejected_count are absent from the small sample
default dict, hence Option; computed_at is display only and omitted. -/
structure FeedbackWeights where
  approvalRate : ℚ
  qtyBias : ℚ
  confidenceThreshold : ℚ
  typeWeights : List (String × ℚ)
  priorityWeights : List (String × ℚ)
  dataPoints : ℕ
  approvedCount : Option ℕ
  rejectedCount : Option ℕ
deriving DecidableEq

/-- The reviewed actions of the trailing 90 day window: status approved
or rejected and reviewed_at at or after the cutoff (SQL comparison with
a NULL reviewed_at is false). -/
def reviewedActions (db : List PendingAction) (now : ℤ) : List PendingAction :=
  db.filter fun a =>
    (a.status == "approved" || a.status == "rejected") &&
    (match a.reviewedAt with
     | some t => decide (now - 90 ≤ t)
     | none => false)

/-- The neutral default weights returned when fewer than 3 reviewed
decisions exist. -/
def defaultWeights (n : ℕ) : FeedbackWeights :=
  { approvalRate := 1
    qtyBias := 1
    confidenceThreshold := 70
    typeWeights := []
    priorityWeights := []
    dataPoints := n
    approvedCount := none
    rejectedCount := none }

/-- The quantity override ratios of approved and modified actions: the
audit row must exist with outcome modified, and both the override and
the recommended quantity must be truthy (not None, not 0). -/
def qtyRatios (approved : List PendingAction) (audits : List AuditEntry) : List ℚ :=
  approved.filterMap fun a =>
    match audits.find? (fun au => au.entityId == a.id && au.outcome == "modified") with
    | some au =>
      match au.qtyOverride, a.recommendedQty with
      | some q, some r => if q ≠ 0 ∧ r ≠ 0 then some (q / (r : ℚ)) else none
      | _, _ => none
    | none => none

/-- Mean override ratio, defaulting to 1 with no modified actions. -/
def rawQtyBias (approved : List PendingAction) (audits : List AuditEntry) : ℚ :=
  if qtyRatios approved audits = [] then 1 else listMean (qtyRatios approved audits)

/-- The learned quantity bias: mean ratio clamped to [0.5, 2], rounded
to 3 decimals. -/
def learnedQtyBias (approved : List PendingAction) (audits : List AuditEntry) : ℚ :=
  roundTo 3 (max (1/2) (min 2 (rawQtyBias approved audits)))

/-- Per category approval rates over a fixed list of categories, one
entry for each category present in the window. -/
def categoryRates (cats : List String) (key : PendingAction → String)
    (reviewed : List PendingAction) : List (String × ℚ) :=
  cats.filterMap fun c =>
    let inCat := reviewed.filter fun a => key a == c
    if inCat.length = 0 then none
    else some (c, ((inCat.filter fun a => a.status == "approved").length : ℚ) / inCat.length)

/-- The 25th percentile of truthy confidence scores of approved
actions, defaulting to 70. -/
def learnedConfidenceThreshold (approved : List PendingAction) : ℚ :=
  let confs := approved.filterMap fun a =>
    match a.confidenceScore with
    | some c => if c ≠ 0 then some c else none
    | none => none
  if confs = [] then 70 else percentile25 confs

/-- The weights computed from at least 3 reviewed decisions. -/
def learnedWeights (reviewed : List PendingAction) (audits : List AuditEntry) :
    FeedbackWeights :=
  let approved := reviewed.filter fun a => a.status == "approved"
  { approvalRate := roundTo 3 ((approved.length : ℚ) / reviewed.length)
    qtyBias := learnedQtyBias approved audits
    confidenceThreshold := roundTo 1 (learnedConfidenceThreshold approved)
    typeWeights :=
      categoryRates ["order", "transfer", "price", "return", "disposal"]
        (fun a => a.type) reviewed
    priorityWeights :=
      categoryRates ["urgent", "high", "normal"] (fun a => a.priority) reviewed
    dataPoints := reviewed.length
    approvedCount := some approved.length
    rejectedCount := some (reviewed.filter fun a => a.status == "rejected").length }

/-- compute_feedback_weights: neutral defaults below 3 reviewed
decisions in the trailing 90 days, learned weights otherwise. -/
def computeFeedbackWeights (db : List PendingAction) (audits : List AuditEntry)
    (now : ℤ) : FeedbackWeights :=
  if (reviewedActions db now).length < 3 then
    defaultWeights (reviewedActions db now).length
  else learnedWeights (reviewedActions db now) audits

/-- apply_feedback_to_action: scale the quantity by the learned bias
and the confidence by the type approval rate, then clamp the rounded
confidence to [40, 99].  The feedback note is display only and
omitted; the priority argument is unused by the source as well. -/
def applyFeedbackToAction (actionType : String) (_priority : String)
    (baseQty : ℤ) (baseConfidence : ℚ) (w : FeedbackWeights) : ℤ × ℚ :=
  let adjustedQty := roundHalfEven ((baseQty : ℚ) * w.qtyBias)
  let adjustedConfidence :=
    match List.lookup actionType w.typeWeights with
    | some rate => baseConfidence * (1/2 + rate * (1/2))
    | none => baseConfidence
  (adjustedQty, roundTo 1 (min 99 (max 40 adjustedConfidence)))

/-! ## Forecast engine (services/forecasting.py) -/

/-- The forecast payload: the recent actuals, the central forecast
values, the model identifier, and the backtested accuracy (None for
the flat moving average).  The lower and upper band of the linear
model is omitted (its width is an irrational square root); the flat
band is plus or minus 20 percent of the same central value. -/
structure ForecastResult where
  actual : List (ℤ × ℤ)
  forecastValues : List ℚ
  model : String
  accuracy : Option ℚ
deriving DecidableEq

/-- pandas groupby on the date column: distinct dates ascending, with
the quantities of equal dates summed. -/
def groupByDate (sales : List SalesObs) : List (ℤ × ℤ) :=
  (sortInts (sales.map (fun s => s.date)).dedup).map fun d =>
    (d, ((sales.filter fun s => s.date == d).map fun s => s.qty).sum)

/-- linear_forecast: below 3 rows, a flat projection at the mean
velocity (model moving_average, accuracy None); otherwise an ordinary
least squares fit of the grouped daily quantities against the day
index, with accuracy 100 minus the MAPE over the most recent third of
the grouped rows.  The degenerate fit with a singular normal equation
(all rows on one date) is outside the model. -/
def linearForecast (sales : List SalesObs) (horizon : ℕ) : ForecastResult :=
  if sales.length < 3 then
    let velocity := if sales = [] then 0 else listMean (sales.map fun s => (s.qty : ℚ))
    { actual := sales.map fun s => (s.date, s.qty)
      forecastValues := List.replicate horizon (roundTo 1 (max 0 velocity))
      model := "moving_average"
      accuracy := none }
  else
    let grouped := groupByDate sales
    let t0 := ((grouped.head?.map fun g => g.1).getD 0)
    let pairs : List (ℚ × ℚ) := grouped.map fun g => (((g.1 - t0 : ℤ) : ℚ), (g.2 : ℚ))
    let n : ℚ := pairs.length
    let st := (pairs.map fun p => p.1).sum
    let sy := (pairs.map fun p => p.2).sum
    let sty := (pairs.map fun p => p.1 * p.2).sum
    let stt := (pairs.map fun p => p.1 * p.1).sum
    let denom := n * stt - st * st
    let slope := if denom = 0 then 0 else (n * sty - st * sy) / denom
    let intercept := (sy - slope * st) / n
    let lastT := ((pairs.map fun p => p.1).max?).getD 0
    let testPairs := takeLast (max 1 (grouped.length / 3)) pairs
    let mape := 100 * listMean (testPairs.map fun p =>
      |p.2 - (slope * p.1 + intercept)| / max p.2 1)
    { actual := (takeLast 14 grouped)
      forecastValues := (List.range horizon).map fun i =>
        roundTo 1 (max 0 (slope * (lastT + (i + 1 : ℕ)) + intercept))
      model := "linear_trend"
      accuracy := some (roundTo 1 (max 0 (100 - mape))) }

/-- The model selection of get_forecast_for_sku: Prophet only with at
least 10 rows (prophetResult is the oracle for the external model,
none meaning it raised and the source fell back), the linear fallback
otherwise. -/
def computeForecast (sales : List SalesObs) (prophetResult : Option ForecastResult) :
    ForecastResult :=
  if 10 ≤ sales.length then prophetResult.getD (linearForecast sales 30)
  else linearForecast sales 30

/-- One row of forecast_cache (unique per sku). -/
structure CacheEntry where
  id : String
  skuId : String
  forecastJson : ForecastResult
  modelUsed : String
  accuracyPct : Option ℚ
  computedAt : ℤ
  validUntil : Option ℤ
deriving DecidableEq

/-- The dict returned by get_forecast_for_sku. -/
structure ForecastOut where
  forecastJson : ForecastResult
  modelUsed : String
  accuracyPct : Option ℚ
  computedAt : ℤ
deriving DecidableEq

/-- get_forecast_for_sku: serve the cached row while now is strictly
before valid_until, otherwise recompute and overwrite the single row
for the sku (update in place when a row exists, insert with a fresh id
otherwise), valid for 6 more hours.  Returns the response dict and the
cache row after the call. -/
def getForecastForSku (cache : Option CacheEntry) (sales : List SalesObs)
    (prophetResult : Option ForecastResult) (now : ℤ) (freshId skuId : String) :
    ForecastOut × Option CacheEntry :=
  match cache with
  | some c =>
    if (match c.validUntil with | some v => decide (now < v) | none => false) then
      ({ forecastJson := c.forecastJson
         modelUsed := c.modelUsed
         accuracyPct := c.accuracyPct
         computedAt := c.computedAt }, some c)
    else
      let result := computeForecast sales prophetResult
      ({ forecastJson := result
         modelUsed := result.model
         accuracyPct := result.accuracy
         computedAt := now },
       some { c with
                forecastJson := result
                modelUsed := result.model
                accuracyPct := result.accuracy
                computedAt := now
                validUntil := some (now + 6) })
  | none =>
    let result := computeForecast sales prophetResult
    ({ forecastJson := result
       modelUsed := result.model
       accuracyPct := result.accuracy
       computedAt := now },
     some { id := freshId
            skuId := skuId
            forecastJson := result
            modelUsed := result.model
            accuracyPct := result.accuracy
            computedAt := now
            validUntil := some (now + 6) })

/-! ## Velocity and the agent scan (services/agent.py) -/

/-- compute_daily_velocity: 0 on an empty frame; the sum of the
trailing window divided by the window length; the mean of all given
rows when the window is empty. -/
def computeDailyVelocity (sales : List SalesObs) (now days : ℤ) : ℚ :=
  if sales = [] then 0
  else
    let recent := sales.filter fun s => decide (now - days ≤ s.date)
    if recent = [] then listMean (sales.map fun s => (s.qty : ℚ))
    else ((recent.map fun s => s.qty).sum : ℤ) / (days : ℚ)

/-- compute_eoq: 50 for nonpositive demand or unit cost, otherwise the
rounded economic order quantity, at least 1. -/
def computeEoq (annualDemand orderCost holdingRate unitCost : ℚ) : ℤ :=
  if annualDemand ≤ 0 ∨ unitCost ≤ 0 then 50
  else max 1 (roundHalfEvenSqrt ((2 * annualDemand * orderCost) / (holdingRate * unitCost)))

/-- The per link score of _pick_best_supplier, with the documented
defaults replacing missing (or zero valued) metrics and a +2 bonus on
a preferred link. -/
def supplierScore (sup : Supplier) (isPreferred : Bool) : ℚ :=
  let otd := pyOr sup.onTimeDeliveryRate (4/5)
  let quality := pyOr sup.qualityRate (9/10)
  let leadTime := pyOr sup.avgLeadTimeDays 14
  let costVar := pyOr sup.costVariancePct 5
  otd * 40 + quality * 35 + max 0 ((30 - leadTime) / 30) * 15
    - min (costVar / 10) 1 * 10
    + (if isPreferred then 2 else 0)

/-- _pick_best_supplier: none without links, the single link without
scoring, otherwise the first link of maximal score (strict improvement
only, so ties keep the earlier link); links whose supplier row is
missing are skipped, and if every link was skipped the first link is
returned. -/
def pickBestSupplier (skuId : String) (links : List SKUSupplier)
    (sups : List Supplier) : Option SKUSupplier :=
  let cands := links.filter fun l => l.skuId == skuId
  match cands with
  | [] => none
  | [l] => some l
  | _ =>
    let best := cands.foldl (fun acc l =>
      match sups.find? (fun s => s.id == l.supplierId) with
      | none => acc
      | some sup =>
        let score := supplierScore sup l.isPreferred
        if acc.1 < score then (score, some l) else acc) ((-1 : ℚ), none)
    match best.2 with
    | some l => some l
    | none => cands.head?

/-- Existing pending order action for the sku (the duplicate check of
the reorder branch). -/
def hasPendingOrder (db : List PendingAction) (skuId : String) : Bool :=
  db.any fun a => a.skuId == skuId && a.type == "order" && a.status == "pending"

/-- Existing pending price or return action for the sku (the duplicate
check of the markdown branch). -/
def hasPendingPriceReturn (db : List PendingAction) (skuId : String) : Bool :=
  db.any fun a =>
    a.skuId == skuId && (a.type == "price" || a.type == "return") && a.status == "pending"

/-- The base confidence of a reorder recommendation. -/
def baseConfidenceOrder (daysUntilStockout : ℚ) (stock safety : ℤ) : ℚ :=
  min 97 (max 60 (90 - |daysUntilStockout| * 2 + (if stock ≤ safety then 10 else 0)))

/-- The pending order action built by the reorder branch of run_agent. -/
def mkOrderAction (oid : String) (sku : SKU) (stock : ℤ) (velocity daysUntilStockout : ℚ)
    (mc : MarketContext) (w : FeedbackWeights) (links : List SKUSupplier)
    (sups : List Supplier) : PendingAction :=
  let priority :=
    if daysUntilStockout ≤ 1 then "urgent"
    else if daysUntilStockout ≤ 3 then "high" else "normal"
  let annualDemand := velocity * 365
  let baseQty : ℤ := max (computeEoq annualDemand 50 (1/4) (pyOr sku.unitCost 10)) sku.moq
  let marketQty := adjustReorderQtyForMarket baseQty mc
  let baseConfidence := baseConfidenceOrder daysUntilStockout stock sku.safetyStock
  let adjusted := applyFeedbackToAction "order" priority marketQty baseConfidence w
  let link := pickBestSupplier sku.id links sups
  let unitCost := pyOr (match link with | some l => l.unitCost | none => none)
                    (pyOr sku.unitCost 0)
  { id := oid
    skuId := sku.id
    type := "order"
    priority := priority
    recommendedQty := some adjusted.1
    recommendedValue := some (roundTo 2 ((adjusted.1 : ℚ) * unitCost))
    supplierId := link.map fun l => l.supplierId
    confidenceScore := some adjusted.2
    status := "pending"
    reviewedAt := none
    reviewedBy := none }

/-- The reorder branch of the scan (step 4a of run_agent): with
positive velocity, a fired trigger (stock at or below the reorder
point, or at most 5 days until stockout), and no existing pending
order action, one new pending order action. -/
def orderActionsFor (db : List PendingAction) (sku : SKU) (stock : ℤ)
    (salesWindow : List SalesObs) (now : ℤ) (mc : MarketContext) (w : FeedbackWeights)
    (links : List SKUSupplier) (sups : List Supplier) (oid : String) :
    List PendingAction :=
  let velocity := computeDailyVelocity salesWindow now 30
  if 0 < velocity then
    let daysRemaining := (stock : ℚ) / velocity
    let daysUntilStockout := daysRemaining - sku.leadTimeDays
    if stock ≤ sku.reorderPoint ∨ daysUntilStockout ≤ 5 then
      if hasPendingOrder db sku.id then []
      else [mkOrderAction oid sku stock velocity daysUntilStockout mc w links sups]
    else []
  else []

/-- The pending markdown action built by the slow mover branch. -/
def mkPriceAction (pid : String) (sku : SKU) (w : FeedbackWeights) : PendingAction :=
  let adjusted := applyFeedbackToAction "price" "normal" 0 78 w
  { id := pid
    skuId := sku.id
    type := "price"
    priority := "normal"
    recommendedQty := none
    recommendedValue := some (-15)
    supplierId := none
    confidenceScore := some adjusted.2
    status := "pending"
    reviewedAt := none
    reviewedBy := none }

/-- The slow mover branch of the scan (step 4b of run_agent): velocity
below 0.1, stock above 50, over 180 days of supply, and no existing
pending price or return action. -/
def priceActionsFor (db : List PendingAction) (sku : SKU) (stock : ℤ)
    (salesWindow : List SalesObs) (now : ℤ) (w : FeedbackWeights) (pid : String) :
    List PendingAction :=
  let velocity := computeDailyVelocity salesWindow now 30
  if velocity < 1/10 ∧ 50 < stock then
    let daysOfSupply := (stock : ℚ) / max velocity (1/100)
    if 180 < daysOfSupply then
      if hasPendingPriceReturn db sku.id then [] else [mkPriceAction pid sku w]
    else []
  else []

/-- The 60 day sales query of the scan loop. -/
def salesWindow (sales : List SalesObs) (now : ℤ) : List SalesObs :=
  sales.filter fun s => decide (now - 60 ≤ s.date)

/-- One iteration of the scan loop of run_agent: the new actions added
for one sku, given the pending actions visible to the duplicate
checks. -/
def processSku (db : List PendingAction) (sku : SKU) (stock : ℤ)
    (sales : List SalesObs) (now : ℤ) (mc : MarketContext) (w : FeedbackWeights)
    (links : List SKUSupplier) (sups : List Supplier) (oid pid : String) :
    List PendingAction :=
  orderActionsFor db sku stock (salesWindow sales now) now mc w links sups oid
    ++ priceActionsFor db sku stock (salesWindow sales now) now w pid

/-- One sku of a scan: the catalog row, its stock position, its sales
history, and the fresh ids of the actions it may create. -/
structure ScanItem where
  sku : SKU
  stock : ℤ
  sales : List SalesObs
  oid : String
  pid : String

/-- run_agent over a list of active skus: the action table after the
scan (each duplicate check sees the actions added for earlier skus,
matching the autoflush semantics of the session). -/
def runAgent (db : List PendingAction) (items : List ScanItem) (now : ℤ)
    (mc : MarketContext) (w : FeedbackWeights) (links : List SKUSupplier)
    (sups : List Supplier) : List PendingAction :=
  items.foldl (fun acc it =>
    acc ++ processSku acc it.sku it.stock it.sales now mc w links sups it.oid it.pid) db

/-! ## Inventory view (routers/data.py) and action review (routers/actions.py) -/

/-- The days remaining column of the inventory view: defined only for
positive velocity. -/
def daysRemaining (stock : ℤ) (velocity : ℚ) : Option ℚ :=
  if 0 < velocity then some ((stock : ℚ) / velocity) else none

/-- approve_action: 404 without a row, a 400 precondition error on a
non pending action (leaving the table untouched), otherwise the
approval update (with the optional quantity override) applied to the
single matching row. -/
def approveAction (db : List PendingAction) (actionId : String)
    (qtyOverride : Option ℤ) (now : ℤ) (reviewerId : String) :
    Except String Unit × List PendingAction :=
  match db.find? (fun a => a.id == actionId) with
  | none => (.error "Action not found", db)
  | some a =>
    if a.status ≠ "pending" then
      (.error ("Action is already " ++ a.status), db)
    else
      let modified :=
        match qtyOverride with
        | some q => decide (some q ≠ a.recommendedQty)
        | none => false
      let a' := { a with
                    recommendedQty := if modified then qtyOverride else a.recommendedQty
                    status := "approved"
                    reviewedAt := some now
                    reviewedBy := some reviewerId }
      (.ok (), db.map fun x => if x.id == actionId then a' else x)

/-- reject_action: 404 without a row, a 400 precondition error on a
non pending action (leaving the table untouched), otherwise the
rejection update applied to the single matching row. -/
def rejectAction (db : List PendingAction) (actionId : String) (now : ℤ)
    (reviewerId : String) : Except String Unit × List PendingAction :=
  match db.find? (fun a => a.id == actionId) with
  | none => (.error "Action not found", db)
  | some a =>
    if a.status ≠ "pending" then
      (.error ("Action is already " ++ a.status), db)
    else
      let a' := { a with
                    status := "rejected"
                    reviewedAt := some now
                    reviewedBy := some reviewerId }
      (.ok (), db.map fun x => if x.id == actionId then a' else x)

/-! ## Helper lemmas -/

theorem floor_le_roundHalfEven (q : ℚ) : ⌊q⌋ ≤ roundHalfEven q := by
  unfold roundHalfEven
  split
  · exact le_refl _
  · split
    · omega
    · split <;> omega

theorem roundHalfEven_le_ceil (q : ℚ) : roundHalfEven q ≤ ⌈q⌉ := by
  have hfc : ⌊q⌋ ≤ ⌈q⌉ := Int.floor_le_ceil q
  have hsucc : (1 / 2 : ℚ) ≤ q - ⌊q⌋ → ⌊q⌋ + 1 ≤ ⌈q⌉ := by
    intro hhalf
    have hlt : (⌊q⌋ : ℚ) < q := by linarith
    have : (⌊q⌋ : ℚ) < (⌈q⌉ : ℚ) := lt_of_lt_of_le hlt (Int.le_ceil q)
    exact_mod_cast Int.add_one_le_of_lt (by exact_mod_cast this)
  unfold roundHalfEven
  split
  · exact hfc
  · next h1 =>
    split
    · next h2 => exact hsucc (le_of_lt h2)
    · next h2 =>
      have heq : q - ⌊q⌋ = 1 / 2 := le_antisymm (le_of_not_lt h2) (le_of_not_lt h1)
      split
      · exact hfc
      · exact hsucc (le_of_eq heq.symm)

theorem le_roundTo (d : ℕ) (m : ℤ) (q : ℚ) (h : (m : ℚ) ≤ q * 10 ^ d) :
    (m : ℚ) / 10 ^ d ≤ roundTo d q := by
  unfold roundTo
  have hf : m ≤ ⌊q * 10 ^ d⌋ := Int.le_floor.mpr h
  have hr : m ≤ roundHalfEven (q * 10 ^ d) :=
    le_trans hf (floor_le_roundHalfEven _)
  have hq : (m : ℚ) ≤ (roundHalfEven (q * 10 ^ d) : ℚ) := by exact_mod_cast hr
  gcongr

theorem roundTo_le (d : ℕ) (m : ℤ) (q : ℚ) (h : q * 10 ^ d ≤ (m : ℚ)) :
    roundTo d q ≤ (m : ℚ) / 10 ^ d := by
  unfold roundTo
  have hc : ⌈q * 10 ^ d⌉ ≤ m := Int.ceil_le.mpr h
  have hr : roundHalfEven (q * 10 ^ d) ≤ m :=
    le_trans (roundHalfEven_le_ceil _) hc
  have hq : (roundHalfEven (q * 10 ^ d) : ℚ) ≤ (m : ℚ) := by exact_mod_cast hr
  gcongr

theorem learnedQtyBias_bounds (approved : List PendingAction) (audits : List AuditEntry) :
    1 / 2 ≤ learnedQtyBias approved audits ∧ learnedQtyBias approved audits ≤ 2 := by
  unfold learnedQtyBias
  constructor
  · have hmax : (1 / 2 : ℚ) ≤ max (1 / 2) (min 2 (rawQtyBias approved audits)) :=
      le_max_left _ _
    have h := le_roundTo 3 500 (max (1 / 2) (min 2 (rawQtyBias approved audits)))
      (by push_cast; nlinarith)
    norm_num at h
    exact h
  · have hmax : max (1 / 2 : ℚ) (min 2 (rawQtyBias approved audits)) ≤ 2 :=
      max_le (by norm_num) (min_le_left _ _)
    have h := roundTo_le 3 2000 (max (1 / 2) (min 2 (rawQtyBias approved audits)))
      (by push_cast; nlinarith)
    norm_num at h
    exact h

theorem roundClamp_bounds (m : ℚ) :
    40 ≤ roundTo 1 (min 99 (max 40 m)) ∧ roundTo 1 (min 99 (max 40 m)) ≤ 99 := by
  have hlo : (40 : ℚ) ≤ min 99 (max 40 m) := le_min (by norm_num) (le_max_left _ _)
  have hhi : min (99 : ℚ) (max 40 m) ≤ 99 := min_le_left _ _
  constructor
  · have h := le_roundTo 1 400 (min 99 (max 40 m)) (by push_cast; nlinarith)
    norm_num at h
    exact h
  · have h := roundTo_le 1 990 (min 99 (max 40 m)) (by push_cast; nlinarith)
    norm_num at h
    exact h

theorem orderActionsFor_of_pending (db : List PendingAction) (sku : SKU) (stock : ℤ)
    (sw : List SalesObs) (now : ℤ) (mc : MarketContext) (w : FeedbackWeights)
    (links : List SKUSupplier) (sups : List Supplier) (oid : String)
    (h : hasPendingOrder db sku.id = true) :
    orderActionsFor db sku stock sw now mc w links sups oid = [] := by
  simp [orderActionsFor, h]

theorem priceActionsFor_of_pending (db : List PendingAction) (sku : SKU) (stock : ℤ)
    (sw : List SalesObs) (now : ℤ) (w : FeedbackWeights) (pid : String)
    (h : hasPendingPriceReturn db sku.id = true) :
    priceActionsFor db sku stock sw now w pid = [] := by
  simp [priceActionsFor, h]

theorem priceActionsFor_cases (db : List PendingAction) (sku : SKU) (stock : ℤ)
    (sw : List SalesObs) (now : ℤ) (w : FeedbackWeights) (pid : String) :
    priceActionsFor db sku stock sw now w pid = []
    ∨ priceActionsFor db sku stock sw now w pid = [mkPriceAction pid sku w] := by
  unfold priceActionsFor
  dsimp only
  split
  · split
    · split
      · exact Or.inl rfl
      · exact Or.inr rfl
    · exact Or.inl rfl
  · exact Or.inl rfl

theorem orderActionsFor_cases (db : List PendingAction) (sku : SKU) (stock : ℤ)
    (sw : List SalesObs) (now : ℤ) (mc : MarketContext) (w : FeedbackWeights)
    (links : List SKUSupplier) (sups : List Supplier) (oid : String) :
    orderActionsFor db sku stock sw now mc w links sups oid = []
    ∨ ∃ v d, orderActionsFor db sku stock sw now mc w links sups oid =
        [mkOrderAction oid sku stock v d mc w links sups] := by
  unfold orderActionsFor
  dsimp only
  split
  · split
    · split
      · exact Or.inl rfl
      · exact Or.inr ⟨_, _, rfl⟩
    · exact Or.inl rfl
  · exact Or.inl rfl

theorem priceActionsFor_no_order (db : List PendingAction) (sku : SKU) (stock : ℤ)
    (sw : List SalesObs) (now : ℤ) (w : FeedbackWeights) (pid : String)
    (p : PendingAction → Bool) (hp : ∀ skuA wA pidA, p (mkPriceAction pidA skuA wA) = false) :
    (priceActionsFor db sku stock sw now w pid).filter p = [] := by
  rcases priceActionsFor_cases db sku stock sw now w pid with h | h <;>
    simp [h, hp]

theorem orderActionsFor_no_price (db : List PendingAction) (sku : SKU) (stock : ℤ)
    (sw : List SalesObs) (now : ℤ) (mc : MarketContext) (w : FeedbackWeights)
    (links : List SKUSupplier) (sups : List Supplier) (oid : String)
    (p : PendingAction → Bool)
    (hp : ∀ oidA skuA stockA vA dA mcA wA linksA supsA,
      p (mkOrderAction oidA skuA stockA vA dA mcA wA linksA supsA) = false) :
    (orderActionsFor db sku stock sw now mc w links sups oid).filter p = [] := by
  rcases orderActionsFor_cases db sku stock sw now mc w links sups oid with h | ⟨v, d, h⟩ <;>
    simp [h, hp]

@[simp] theorem mkPriceAction_type (pid : String) (sku : SKU) (w : FeedbackWeights) :
    (mkPriceAction pid sku w).type = "price" := rfl

@[simp] theorem mkPriceAction_skuId (pid : String) (sku : SKU) (w : FeedbackWeights) :
    (mkPriceAction pid sku w).skuId = sku.id := rfl

@[simp] theorem mkPriceAction_status (pid : String) (sku : SKU) (w : FeedbackWeights) :
    (mkPriceAction pid sku w).status = "pending" := rfl

@[simp] theorem mkOrderAction_type (oid : String) (sku : SKU) (stock : ℤ) (v d : ℚ)
    (mc : MarketContext) (w : FeedbackWeights) (links : List SKUSupplier)
    (sups : List Supplier) :
    (mkOrderAction oid sku stock v d mc w links sups).type = "order" := rfl

@[simp] theorem mkOrderAction_skuId (oid : String) (sku : SKU) (stock : ℤ) (v d : ℚ)
    (mc : MarketContext) (w : FeedbackWeights) (links : List SKUSupplier)
    (sups : List Supplier) :
    (mkOrderAction oid sku stock v d mc w links sups).skuId = sku.id := rfl

@[simp] theorem mkOrderAction_status (oid : String) (sku : SKU) (stock : ℤ) (v d : ℚ)
    (mc : MarketContext) (w : FeedbackWeights) (links : List SKUSupplier)
    (sups : List Supplier) :
    (mkOrderAction oid sku stock v d mc w links sups).status = "pending" := rfl

/-! ## Claims -/

/-- Claim C1: at most one pending action of a given (item, type family)
exists at a time.  With an existing pending order action for the sku,
a scan pass adds no new order action for it; with an existing pending
price or return action, a scan pass adds no new markdown (price)
action for it. -/
theorem c1_pending_type_family_is_exclusive (db : List PendingAction) (sku : SKU)
    (stock : ℤ) (sales : List SalesObs) (now : ℤ) (mc : MarketContext)
    (w : FeedbackWeights) (links : List SKUSupplier) (sups : List Supplier)
    (oid pid : String) :
    (hasPendingOrder db sku.id = true →
      (processSku db sku stock sales now mc w links sups oid pid).filter
        (fun a => a.type == "order") = [])
    ∧ (hasPendingPriceReturn db sku.id = true →
      (processSku db sku stock sales now mc w links sups oid pid).filter
        (fun a => a.type == "price") = []) := by
  constructor
  · intro h
    rw [processSku, List.filter_append,
      orderActionsFor_of_pending db sku stock _ now mc w links sups oid h,
      priceActionsFor_no_order db sku stock _ now w pid _
        (fun skuA wA pidA => by simp [mkPriceAction_type])]
    simp
  · intro h
    rw [processSku, List.filter_append,
      priceActionsFor_of_pending db sku stock _ now w pid h,
      orderActionsFor_no_price db sku stock _ now mc w links sups oid _
        (fun oidA skuA stockA vA dA mcA wA linksA supsA => by
          simp [mkOrderAction_type])]
    simp

theorem c1_pending_type_family_is_exclusive_witness :
    (processSku
        [{ id := "a1", skuId := "s1", type := "order", priority := "normal",
           recommendedQty := some 5, recommendedValue := some 50, supplierId := none,
           confidenceScore := some 80, status := "pending", reviewedAt := none,
           reviewedBy := none },
         { id := "a2", skuId := "s1", type := "price", priority := "normal",
           recommendedQty := none, recommendedValue := some (-15), supplierId := none,
           confidenceScore := some 78, status := "pending", reviewedAt := none,
           reviewedBy := none }]
        ⟨"s1", 20, 10, 7, 1, some 10, some 20⟩ 0 [] 0 ⟨"neutral", "normal"⟩
        (defaultWeights 0) [] [] "o1" "p1").filter (fun a => a.type == "order") = []
    ∧ (processSku
        [{ id := "a1", skuId := "s1", type := "order", priority := "normal",
           recommendedQty := some 5, recommendedValue := some 50, supplierId := none,
           confidenceScore := some 80, status := "pending", reviewedAt := none,
           reviewedBy := none },
         { id := "a2", skuId := "s1", type := "price", priority := "normal",
           recommendedQty := none, recommendedValue := some (-15), supplierId := none,
           confidenceScore := some 78, status := "pending", reviewedAt := none,
           reviewedBy := none }]
        ⟨"s1", 20, 10, 7, 1, some 10, some 20⟩ 0 [] 0 ⟨"neutral", "normal"⟩
        (defaultWeights 0) [] [] "o1" "p1").filter (fun a => a.type == "price") = [] := by
  have h := c1_pending_type_family_is_exclusive
    [{ id := "a1", skuId := "s1", type := "order", priority := "normal",
       recommendedQty := some 5, recommendedValue := some 50, supplierId := none,
       confidenceScore := some 80, status := "pending", reviewedAt := none,
       reviewedBy := none },
     { id := "a2", skuId := "s1", type := "price", priority := "normal",
       recommendedQty := none, recommendedValue := some (-15), supplierId := none,
       confidenceScore := some 78, status := "pending", reviewedAt := none,
       reviewedBy := none }]
    ⟨"s1", 20, 10, 7, 1, some 10, some 20⟩ 0 [] 0 ⟨"neutral", "normal"⟩
    (defaultWeights 0) [] [] "o1" "p1"
  exact ⟨h.1 (by simp [hasPendingOrder]), h.2 (by simp [hasPendingPriceReturn])⟩

/-- Claim C4: the market adjusted reorder quantity is never below the
unadjusted base quantity, for every base quantity and market
context. -/
theorem c4_market_adjustment_never_reduces (baseQty : ℤ) (mc : MarketContext) :
    baseQty ≤ adjustReorderQtyForMarket baseQty mc := by
  simp only [adjustReorderQtyForMarket]
  exact le_max_right _ _

/-- Claim C5: with fewer than 3 reviewed decisions in the trailing 90
day window, compute_feedback_weights returns exactly the neutral
defaults: approval rate 1, quantity bias 1, confidence threshold 70,
and empty per type and per priority maps. -/
theorem c5_insufficient_data_neutral_defaults (db : List PendingAction)
    (audits : List AuditEntry) (now : ℤ)
    (h : (reviewedActions db now).length < 3) :
    (computeFeedbackWeights db audits now).approvalRate = 1
    ∧ (computeFeedbackWeights db audits now).qtyBias = 1
    ∧ (computeFeedbackWeights db audits now).confidenceThreshold = 70
    ∧ (computeFeedbackWeights db audits now).typeWeights = []
    ∧ (computeFeedbackWeights db audits now).priorityWeights = [] := by
  simp [computeFeedbackWeights, if_pos h, defaultWeights]

theorem c5_insufficient_data_neutral_defaults_witness :
    (computeFeedbackWeights [] [] 0).approvalRate = 1
    ∧ (computeFeedbackWeights [] [] 0).qtyBias = 1
    ∧ (computeFeedbackWeights [] [] 0).confidenceThreshold = 70
    ∧ (computeFeedbackWeights [] [] 0).typeWeights = []
    ∧ (computeFeedbackWeights [] [] 0).priorityWeights = [] :=
  c5_insufficient_data_neutral_defaults [] [] 0 (by simp [reviewedActions])

/-- Claim C6: the quantity bias computed by compute_feedback_weights
always lies in [0.5, 2], and the adjusted confidence returned by
apply_feedback_to_action always lies in [40, 99]. -/
theorem c6_bias_and_confidence_clamped (db : List PendingAction)
    (audits : List AuditEntry) (now : ℤ) (actionType priorityArg : String)
    (baseQty : ℤ) (baseConfidence : ℚ) (w : FeedbackWeights) :
    (1 / 2 ≤ (computeFeedbackWeights db audits now).qtyBias
      ∧ (computeFeedbackWeights db audits now).qtyBias ≤ 2)
    ∧ (40 ≤ (applyFeedbackToAction actionType priorityArg baseQty baseConfidence w).2
      ∧ (applyFeedbackToAction actionType priorityArg baseQty baseConfidence w).2 ≤ 99) := by
  constructor
  · unfold computeFeedbackWeights
    split
    · simp only [defaultWeights]
      norm_num
    · simp only [learnedWeights]
      exact learnedQtyBias_bounds _ _
  · simp only [applyFeedbackToAction]
    exact roundClamp_bounds _

/-- Claim C2 (amended): for every active item whose computed velocity
is positive and that has no existing pending order action, a scan pass
creates exactly one pending order action whenever the reorder trigger
fires (stock at or below the reorder point, or days until stockout at
most the threshold 5).  The amendment is the positive velocity
hypothesis: the reorder branch of run_agent only runs with velocity
above zero, so low stock alone does not suffice. -/
theorem c2_reorder_trigger_creates_order (db : List PendingAction) (sku : SKU)
    (stock : ℤ) (sales : List SalesObs) (now : ℤ) (mc : MarketContext)
    (w : FeedbackWeights) (links : List SKUSupplier) (sups : List Supplier)
    (oid pid : String)
    (hv : 0 < computeDailyVelocity (salesWindow sales now) now 30)
    (htrig : stock ≤ sku.reorderPoint ∨
      (stock : ℚ) / computeDailyVelocity (salesWindow sales now) now 30
        - (sku.leadTimeDays : ℚ) ≤ 5)
    (hnp : hasPendingOrder db sku.id = false) :
    ((processSku db sku stock sales now mc w links sups oid pid).filter
      (fun a => a.skuId == sku.id && a.type == "order" && a.status == "pending")).length
      = 1 := by
  rw [processSku, List.filter_append, List.length_append]
  have horder : orderActionsFor db sku stock (salesWindow sales now) now mc w links sups oid
      = [mkOrderAction oid sku stock
          (computeDailyVelocity (salesWindow sales now) now 30)
          ((stock : ℚ) / computeDailyVelocity (salesWindow sales now) now 30
            - (sku.leadTimeDays : ℚ))
          mc w links sups] := by
    unfold orderActionsFor
    dsimp only
    rw [if_pos hv, if_pos htrig, hnp]
    simp
  rw [horder,
    priceActionsFor_no_order db sku stock (salesWindow sales now) now w pid _
      (fun skuA wA pidA => by simp)]
  simp

theorem c2_reorder_trigger_creates_order_witness :
    ((processSku [] ⟨"s1", 20, 10, 7, 1, some 1460, some 20⟩ 0 [⟨0, 30⟩] 0
        ⟨"neutral", "normal"⟩ (defaultWeights 0) [] [] "o1" "p1").filter
      (fun a => a.skuId == "s1" && a.type == "order" && a.status == "pending")).length
      = 1 :=
  c2_reorder_trigger_creates_order [] ⟨"s1", 20, 10, 7, 1, some 1460, some 20⟩ 0
    [⟨0, 30⟩] 0 ⟨"neutral", "normal"⟩ (defaultWeights 0) [] [] "o1" "p1"
    (by norm_num [computeDailyVelocity, salesWindow, List.filter])
    (Or.inl (by norm_num))
    (by simp [hasPendingOrder])

theorem c2_counterexample_zero_velocity_low_stock :
    (0 : ℤ) ≤ (⟨"s1", 20, 10, 7, 1, some 10, some 20⟩ : SKU).reorderPoint
    ∧ hasPendingOrder [] "s1" = false
    ∧ processSku [] ⟨"s1", 20, 10, 7, 1, some 10, some 20⟩ 0 [] 0
        ⟨"neutral", "normal"⟩ (defaultWeights 0) [] [] "o1" "p1" = [] := by
  refine ⟨by norm_num, by simp [hasPendingOrder], ?_⟩
  simp [processSku, orderActionsFor, priceActionsFor, salesWindow, computeDailyVelocity]

/-- Claim C3 (amended): with fewer than 10 observations the forecast
computation skips the primary (Prophet) model; the flat velocity
projection with model moving_average and accuracy None is returned
only when fewer than 3 observations exist, while 3 to 9 observations
produce the linear trend fallback. -/
theorem c3_sparse_history_skips_primary_model (sales : List SalesObs)
    (prophetResult : Option ForecastResult) (h : sales.length < 10) :
    computeForecast sales prophetResult = linearForecast sales 30
    ∧ (sales.length < 3 →
        (linearForecast sales 30).model = "moving_average"
        ∧ (linearForecast sales 30).accuracy = none
        ∧ (linearForecast sales 30).forecastValues =
            List.replicate 30 (roundTo 1 (max 0
              (if sales = [] then 0 else listMean (sales.map fun s => (s.qty : ℚ)))))) := by
  constructor
  · rw [computeForecast, if_neg (by omega)]
  · intro h3
    rw [linearForecast, if_pos h3]
    exact ⟨rfl, rfl, rfl⟩

theorem c3_sparse_history_skips_primary_model_witness :
    computeForecast [⟨0, 5⟩, ⟨1, 7⟩] none = linearForecast [⟨0, 5⟩, ⟨1, 7⟩] 30
    ∧ ((linearForecast [⟨0, 5⟩, ⟨1, 7⟩] 30).model = "moving_average"
      ∧ (linearForecast [⟨0, 5⟩, ⟨1, 7⟩] 30).accuracy = none
      ∧ (linearForecast [⟨0, 5⟩, ⟨1, 7⟩] 30).forecastValues =
          List.replicate 30 (roundTo 1 (max 0
            (if ([⟨0, 5⟩, ⟨1, 7⟩] : List SalesObs) = [] then 0
             else listMean (([⟨0, 5⟩, ⟨1, 7⟩] : List SalesObs).map fun s => (s.qty : ℚ)))))) := by
  have h := c3_sparse_history_skips_primary_model [⟨0, 5⟩, ⟨1, 7⟩] none (by norm_num)
  exact ⟨h.1, h.2 (by norm_num)⟩

theorem c3_counterexample_three_observations :
    ([⟨0, 5⟩, ⟨1, 7⟩, ⟨2, 6⟩] : List SalesObs).length < 10
    ∧ (computeForecast [⟨0, 5⟩, ⟨1, 7⟩, ⟨2, 6⟩] none).model = "linear_trend"
    ∧ (computeForecast [⟨0, 5⟩, ⟨1, 7⟩, ⟨2, 6⟩] none).model ≠ "moving_average"
    ∧ (computeForecast [⟨0, 5⟩, ⟨1, 7⟩, ⟨2, 6⟩] none).accuracy ≠ none := by
  refine ⟨by norm_num, ?_, ?_, ?_⟩ <;>
    simp [computeForecast, linearForecast]

/-- Claim C7: a forecast request strictly before the valid_until of
the cached row returns the cached payload verbatim and leaves the
cache unchanged; a request at or after valid_until recomputes the
forecast and overwrites the single cache row (updating in place when a
row exists, inserting a fresh row otherwise) with valid_until 6 hours
ahead. -/
theorem c7_forecast_cache_ttl (c : CacheEntry) (v now1 now2 : ℤ)
    (sales : List SalesObs) (prophetResult : Option ForecastResult)
    (freshId skuId : String)
    (hv : c.validUntil = some v) (h1 : now1 < v) (h2 : v ≤ now2) :
    getForecastForSku (some c) sales prophetResult now1 freshId skuId =
      ({ forecastJson := c.forecastJson, modelUsed := c.modelUsed,
         accuracyPct := c.accuracyPct, computedAt := c.computedAt }, some c)
    ∧ getForecastForSku (some c) sales prophetResult now2 freshId skuId =
      ({ forecastJson := computeForecast sales prophetResult,
         modelUsed := (computeForecast sales prophetResult).model,
         accuracyPct := (computeForecast sales prophetResult).accuracy,
         computedAt := now2 },
       some { c with
                forecastJson := computeForecast sales prophetResult,
                modelUsed := (computeForecast sales prophetResult).model,
                accuracyPct := (computeForecast sales prophetResult).accuracy,
                computedAt := now2,
                validUntil := some (now2 + 6) })
    ∧ getForecastForSku none sales prophetResult now2 freshId skuId =
      ({ forecastJson := computeForecast sales prophetResult,
         modelUsed := (computeForecast sales prophetResult).model,
         accuracyPct := (computeForecast sales prophetResult).accuracy,
         computedAt := now2 },
       some { id := freshId, skuId := skuId,
              forecastJson := computeForecast sales prophetResult,
              modelUsed := (computeForecast sales prophetResult).model,
              accuracyPct := (computeForecast sales prophetResult).accuracy,
              computedAt := now2,
              validUntil := some (now2 + 6) }) := by
  refine ⟨?_, ?_, ?_⟩
  · simp [getForecastForSku, hv, h1]
  · simp [getForecastForSku, hv, not_lt.mpr h2]
  · simp [getForecastForSku]

theorem c7_forecast_cache_ttl_witness :
    getForecastForSku (some ⟨"c1", "s1", ⟨[], [], "m", none⟩, "m", none, 0, some 10⟩)
        [] none 0 "f1" "s1" =
      ({ forecastJson := ⟨[], [], "m", none⟩, modelUsed := "m",
         accuracyPct := none, computedAt := 0 },
       some ⟨"c1", "s1", ⟨[], [], "m", none⟩, "m", none, 0, some 10⟩)
    ∧ getForecastForSku (some ⟨"c1", "s1", ⟨[], [], "m", none⟩, "m", none, 0, some 10⟩)
        [] none 10 "f1" "s1" =
      ({ forecastJson := computeForecast [] none,
         modelUsed := (computeForecast [] none).model,
         accuracyPct := (computeForecast [] none).accuracy,
         computedAt := 10 },
       some { id := "c1", skuId := "s1",
              forecastJson := computeForecast [] none,
              modelUsed := (computeForecast [] none).model,
              accuracyPct := (computeForecast [] none).accuracy,
              computedAt := 10,
              validUntil := some 16 })
    ∧ getForecastForSku none [] none 10 "f1" "s1" =
      ({ forecastJson := computeForecast [] none,
         modelUsed := (computeForecast [] none).model,
         accuracyPct := (computeForecast [] none).accuracy,
         computedAt := 10 },
       some { id := "f1", skuId := "s1",
              forecastJson := computeForecast [] none,
              modelUsed := (computeForecast [] none).model,
              accuracyPct := (computeForecast [] none).accuracy,
              computedAt := 10,
              validUntil := some 16 }) :=
  c7_forecast_cache_ttl ⟨"c1", "s1", ⟨[], [], "m", none⟩, "m", none, 0, some 10⟩
    10 0 10 [] none "f1" "s1" rfl (by norm_num) (by norm_num)

/-- Claim C8: approving or rejecting an action whose status is not
pending fails with a precondition error and leaves the action table
entirely unchanged. -/
theorem c8_review_requires_pending (db : List PendingAction) (actionId : String)
    (a : PendingAction) (qtyOverride : Option ℤ) (now : ℤ) (reviewerId : String)
    (hfind : db.find? (fun x => x.id == actionId) = some a)
    (hs : a.status ≠ "pending") :
    approveAction db actionId qtyOverride now reviewerId =
      (.error ("Action is already " ++ a.status), db)
    ∧ rejectAction db actionId now reviewerId =
      (.error ("Action is already " ++ a.status), db) := by
  constructor
  · rw [approveAction, hfind]
    simp only [if_pos hs]
  · rw [rejectAction, hfind]
    simp only [if_pos hs]

theorem c8_review_requires_pending_witness :
    approveAction
        [{ id := "a1", skuId := "s1", type := "order", priority := "normal",
           recommendedQty := some 5, recommendedValue := some 50, supplierId := none,
           confidenceScore := some 80, status := "approved", reviewedAt := some 0,
           reviewedBy := some "u1" }] "a1" (some 9) 5 "u2" =
      (.error "Action is already approved",
       [{ id := "a1", skuId := "s1", type := "order", priority := "normal",
          recommendedQty := some 5, recommendedValue := some 50, supplierId := none,
          confidenceScore := some 80, status := "approved", reviewedAt := some 0,
          reviewedBy := some "u1" }])
    ∧ rejectAction
        [{ id := "a1", skuId := "s1", type := "order", priority := "normal",
           recommendedQty := some 5, recommendedValue := some 50, supplierId := none,
           confidenceScore := some 80, status := "approved", reviewedAt := some 0,
           reviewedBy := some "u1" }] "a1" 5 "u2" =
      (.error "Action is already approved",
       [{ id := "a1", skuId := "s1", type := "order", priority := "normal",
          recommendedQty := some 5, recommendedValue := some 50, supplierId := none,
          confidenceScore := some 80, status := "approved", reviewedAt := some 0,
          reviewedBy := some "u1" }]) :=
  c8_review_requires_pending
    [{ id := "a1", skuId := "s1", type := "order", priority := "normal",
       recommendedQty := some 5, recommendedValue := some 50, supplierId := none,
       confidenceScore := some 80, status := "approved", reviewedAt := some 0,
       reviewedBy := some "u1" }] "a1"
    { id := "a1", skuId := "s1", type := "order", priority := "normal",
      recommendedQty := some 5, recommendedValue := some 50, supplierId := none,
      confidenceScore := some 80, status := "approved", reviewedAt := some 0,
      reviewedBy := some "u1" }
    (some 9) 5 "u2" (by simp [List.find?]) (by simp)

/-- Claim C9: with no observations at all the daily velocity is 0 and
days remaining is undefined (None, defined only for positive
velocity); with an empty trailing window but older observations the
velocity is the mean of all available observations. -/
theorem c9_velocity_empty_window (sales : List SalesObs)
    (now days nowE daysE stockE : ℤ)
    (h1 : sales ≠ [])
    (h2 : sales.filter (fun s => decide (now - days ≤ s.date)) = []) :
    computeDailyVelocity [] nowE daysE = 0
    ∧ daysRemaining stockE (computeDailyVelocity [] nowE daysE) = none
    ∧ computeDailyVelocity sales now days = listMean (sales.map fun s => (s.qty : ℚ)) := by
  refine ⟨by simp [computeDailyVelocity], by simp [computeDailyVelocity, daysRemaining], ?_⟩
  rw [computeDailyVelocity, if_neg h1]
  dsimp only
  rw [h2, if_pos rfl]

theorem c9_velocity_empty_window_witness :
    computeDailyVelocity [] 0 30 = 0
    ∧ daysRemaining 10 (computeDailyVelocity [] 0 30) = none
    ∧ computeDailyVelocity [⟨-100, 5⟩] 0 30 =
        listMean (([⟨-100, 5⟩] : List SalesObs).map fun s => (s.qty : ℚ)) :=
  c9_velocity_empty_window [⟨-100, 5⟩] 0 30 0 30 10 (by simp)
    (by simp [List.filter])

/-- Claim C10: in per item supplier selection a reliability metric
stored as 0 is treated like a missing metric: a supplier with on time
delivery rate 0 scores exactly as it would with the default rate
0.8. -/
theorem c10_zero_metric_treated_as_missing (sup : Supplier) (pref : Bool)
    (h : sup.onTimeDeliveryRate = some 0) :
    supplierScore sup pref =
      supplierScore { sup with onTimeDeliveryRate := some (4/5) } pref := by
  simp only [supplierScore, pyOr, h]
  norm_num

theorem c10_zero_metric_treated_as_missing_witness :
    supplierScore ⟨"s1", some 0, some (9/10), some 10, some 2⟩ true =
      supplierScore ⟨"s1", some (4/5), some (9/10), some 10, some 2⟩ true :=
  c10_zero_metric_treated_as_missing ⟨"s1", some 0, some (9/10), some 10, some 2⟩
    true rfl

end Stok
